import Mathlib

/-!
Shallow embedding of the DeProductify scoring and decision engine
(src/main.py, class DeProductifyOrchestrator) in Lean 4.

Conventions of the embedding:
* Python floats are modelled as rationals; every numeric literal of the
  source (0.4, 0.1, 5.0, ...) appears as the exact rational.
* Python `time.time()` values are passed in explicitly as a rational `now`.
* Calls into the external producer modules (detection, tracking, keyboard)
  are modelled by an `Outcome` value per try/except block: `.ok payload`
  carries the values those calls returned, `.exn` means some call in the
  block raised, landing in the enclosing `except Exception` handler.
* Console printing and the `previous_triggers` set (used only to
  de-duplicate console log lines) are not modelled; the trigger path still
  clears the set as in the source.
* f-string interpolation of numeric values into message strings is
  abstracted: messages keep their distinguishing fixed text only.
-/

/-- Result of one guarded block of external-producer calls: either every call
returned (payload collected) or some call raised and control jumped to the
enclosing handler. -/
inductive Outcome (α : Type) where
  | ok : α → Outcome α
  | exn : Outcome α
deriving DecidableEq

/-- Python `int(x)` on a float: truncation toward zero. -/
def pyTrunc (x : ℚ) : ℤ := if 0 ≤ x then ⌊x⌋ else ⌈x⌉

/-- `int(x * 10) / 10.0` from the source: quantize a score down to the
nearest 0.1 step (for non-negative scores this is a floor). -/
def quantizeTenth (x : ℚ) : ℚ := ((pyTrunc (x * 10) : ℤ) : ℚ) / 10

/-- The mutable state of DeProductifyOrchestrator set up in
DeProductifyOrchestrator.__init__ (src/main.py lines 49-103).
The external module objects (detector, tracker, keyboard_tracker) are not
state of the engine itself and are represented by the per-tick Outcome
inputs instead. -/
structure Orchestrator where
  productivityThreshold : ℚ
  checkInterval : ℚ
  cooldownSeconds : ℚ
  lastTriggerTime : ℚ
  isInCooldown : Bool
  monitoring : Bool
  baselineScore : ℚ
  previousTriggers : List String
  lastWarningLevel : ℚ
  warningCooldown : ℚ
  lastWarningTime : ℚ
deriving DecidableEq

/-- DeProductifyOrchestrator.__init__ (src/main.py lines 49-103): pure field
assignment. The body performs no validation of any configuration value and
never raises for configuration reasons; the Except codomain records that
Python construction could in principle fail, and this embedding shows the
orchestrator's own constructor always succeeds. Construction of the external
modules (ProductivityDetector, WindowTracker, KeyboardTracker) is out of
scope; a KeyboardTracker failure is caught inside __init__ itself. -/
def DeProductifyOrchestrator.init (productivityThreshold checkInterval : ℚ)
    ( _useKeyboardTracking : Bool) (cooldownSeconds : ℚ) :
    Except String Orchestrator :=
  Except.ok
    { productivityThreshold := productivityThreshold
      checkInterval := checkInterval
      cooldownSeconds := cooldownSeconds
      lastTriggerTime := 0
      isInCooldown := false
      monitoring := false
      baselineScore := 0
      previousTriggers := []
      lastWarningLevel := 0
      warningCooldown := 5
      lastWarningTime := 0 }

/-- Values returned by the detection-block calls (src/main.py lines 127-167)
when none of them raises: the productivity_score from analyze_screen, the
triggers_activated count and the gemini_used flag of its result dict. -/
structure DetectionPayload where
  score : ℚ
  triggersActivated : Nat
  geminiUsed : Bool
deriving DecidableEq

/-- Values returned by the tracking-block calls (src/main.py lines 172-218)
when the external calls do not raise: the boolean from
tracker.should_trigger_protocol, the focused app name, and the tab-overload
data used by the else branch. -/
structure TrackingPayload where
  shouldTrigger : Bool
  appName : String
  tabOverload : Bool
  isProductiveTab : Bool
  tabCount : Nat
deriving DecidableEq

/-- Values returned by the keyboard-block calls (src/main.py lines 222-239)
when they do not raise: the activity score, the productive-typing flag and
its reason string. -/
structure KeyboardPayload where
  score : ℚ
  isProductive : Bool
  kbReason : String
deriving DecidableEq

/-- External inputs of one evaluation tick: one Outcome per try/except block
of get_combined_productivity_score. For the keyboard block, `.ok none`
means self.keyboard_tracker is None (tracking disabled). -/
structure TickSignals where
  detection : Outcome DetectionPayload
  tracking : Outcome TrackingPayload
  keyboard : Outcome (Option KeyboardPayload)
deriving DecidableEq

/-- Detection block (src/main.py lines 127-170): on any exception the
handler prints a warning and results keeps detection_score 0.0; otherwise
the score is stored and, when positive with at least one trigger activated,
trigger strings are appended. -/
def detectionBlock : Outcome DetectionPayload → ℚ × List String
  | Outcome.exn => (0, [])
  | Outcome.ok p =>
    if 0 < p.score ∧ 0 < p.triggersActivated then
      (p.score,
        ("Visual detection: " ++ toString p.triggersActivated ++ " triggers") ::
          (if p.geminiUsed then ["AI (Gemini) detected productivity"] else []))
    else (p.score, [])

/-- Tracking block (src/main.py lines 172-220). When should_trigger_protocol
returns True the local tracking_score is set to 0.8 and stored. In the else
branch, on tab overload of a productive tab the trigger string is appended
and then the line `if tracking_score < 0.7` reads the local variable
tracking_score, which was never assigned on this path: Python raises
UnboundLocalError, the enclosing `except Exception` handler catches it, the
already-appended trigger string survives in the results dict, and the
stored tracking_score stays at its initial 0.0. -/
def trackingBlock : Outcome TrackingPayload → ℚ × List String
  | Outcome.exn => (0, [])
  | Outcome.ok p =>
    if p.shouldTrigger then
      (8 / 10, ["Active app focus: " ++ p.appName])
    else if p.tabOverload ∧ p.isProductiveTab then
      (0, ["Tab overload: " ++ toString p.tabCount ++ " tabs"])
    else (0, [])

/-- Keyboard block (src/main.py lines 222-242): score stored whenever a
tracker exists and no call raises; trigger string appended when the score
is positive and typing is classified productive. -/
def keyboardBlock : Outcome (Option KeyboardPayload) → ℚ × List String
  | Outcome.exn => (0, [])
  | Outcome.ok none => (0, [])
  | Outcome.ok (some p) =>
    if 0 < p.score ∧ p.isProductive then
      (p.score, ["Keyboard: " ++ p.kbReason])
    else (p.score, [])

/-- Weighted combination of the three block scores
(src/main.py lines 246-250): detection 40%, tracking 40%, keyboard 20%. -/
def aggregateWeightedRaw (detectionScore trackingScore keyboardScore : ℚ) : ℚ :=
  detectionScore * (4 / 10) + trackingScore * (4 / 10) + keyboardScore * (2 / 10)

/-- Baseline ratchet step (src/main.py lines 255-258): quantize the raw
score down to the nearest 0.1 and raise the stored baseline only when the
quantized value strictly exceeds it. -/
def baselineUpdate (baseline rawScore : ℚ) : ℚ :=
  if baseline < quantizeTenth rawScore then quantizeTenth rawScore else baseline

/-- The results dictionary built by get_combined_productivity_score
(src/main.py lines 118-276). -/
structure ScoreData where
  combinedScore : ℚ
  detectionScore : ℚ
  trackingScore : ℚ
  keyboardScore : ℚ
  triggers : List String
  reason : String
  baselineScore : ℚ
  rawScore : ℚ
deriving DecidableEq

/-- get_combined_productivity_score (src/main.py lines 105-276): runs the
three guarded producer blocks, combines their scores with fixed weights,
ratchets the baseline stored on self, takes the combined score as the max
of baseline and raw capped at 1.0, and builds the reason string. -/
def getCombinedProductivityScore (st : Orchestrator) (sig : TickSignals) :
    ScoreData × Orchestrator :=
  let det := detectionBlock sig.detection
  let track := trackingBlock sig.tracking
  let kb := keyboardBlock sig.keyboard
  let rawScore := aggregateWeightedRaw det.1 track.1 kb.1
  let newBaseline := baselineUpdate st.baselineScore rawScore
  let combinedScore := max newBaseline rawScore
  let triggers := det.2 ++ track.2 ++ kb.2
  let reason :=
    if triggers.isEmpty then "No productivity indicators detected"
    else String.intercalate " | " triggers
  ({ combinedScore := min combinedScore 1
     detectionScore := det.1
     trackingScore := track.1
     keyboardScore := kb.1
     triggers := triggers
     reason := reason
     baselineScore := newBaseline
     rawScore := rawScore },
   { st with baselineScore := newBaseline })

/-- Message tier of check_and_send_warnings (src/main.py lines 354-363),
keyed by the integer percentage of the current threshold; the interpolated
percentage number itself is abstracted away. -/
def warningMessage (percentage : ℤ) : String :=
  if 40 ≤ percentage then "Productivity at percent - Protocol imminent"
  else if 30 ≤ percentage then "Productivity rising"
  else if 20 ≤ percentage then "Productivity detected"
  else "Productivity level"

/-- check_and_send_warnings (src/main.py lines 336-376): rate-limited
0.1-bucket warning ladder. Returns the notification sent (if any) and the
updated state. -/
def checkAndSendWarnings (st : Orchestrator) (now productivityScore : ℚ) :
    Option String × Orchestrator :=
  if now - st.lastWarningTime < st.warningCooldown then (none, st)
  else
    let currentThreshold := quantizeTenth productivityScore
    if st.lastWarningLevel < currentThreshold ∧ 1 / 10 ≤ currentThreshold then
      let percentage := pyTrunc (currentThreshold * 100)
      (some (warningMessage percentage),
       { st with lastWarningLevel := currentThreshold, lastWarningTime := now })
    else (none, st)

/-- The cooldown rejection message of should_trigger_protocol
(src/main.py line 393); the interpolated remaining-seconds number is
abstracted away. -/
def cooldownMessage ( _timeRemaining : ℚ) : String := "Cooldown active"

/-- Threshold comparison at the end of should_trigger_protocol
(src/main.py lines 402-407). -/
def evaluateThreshold (st : Orchestrator) (data : ScoreData) :
    (Bool × String × ℚ) × Orchestrator :=
  if st.productivityThreshold ≤ data.combinedScore then
    ((true, "Productivity detected: " ++ data.reason, data.combinedScore), st)
  else ((false, data.reason, data.combinedScore), st)

/-- should_trigger_protocol (src/main.py lines 378-407) when called with
pre-computed productivity_data, as the monitoring loop does: check cooldown
first (lazily clearing an expired one), then compare the combined score
with the threshold. -/
def shouldTriggerProtocol (st : Orchestrator) (now : ℚ) (data : ScoreData) :
    (Bool × String × ℚ) × Orchestrator :=
  if st.isInCooldown then
    let timeRemaining := st.cooldownSeconds - (now - st.lastTriggerTime)
    if 0 < timeRemaining then ((false, cooldownMessage timeRemaining, 0), st)
    else evaluateThreshold { st with isInCooldown := false } data
  else evaluateThreshold st data

/-- should_trigger_protocol (src/main.py lines 378-407) when called with
productivity_data=None: an active cooldown returns before
get_combined_productivity_score is ever called, so no signal collection and
no baseline mutation happens on that path. -/
def shouldTriggerProtocolSelf (st : Orchestrator) (now : ℚ)
    (sig : TickSignals) : (Bool × String × ℚ) × Orchestrator :=
  if st.isInCooldown then
    let timeRemaining := st.cooldownSeconds - (now - st.lastTriggerTime)
    if 0 < timeRemaining then ((false, cooldownMessage timeRemaining, 0), st)
    else
      let d := getCombinedProductivityScore { st with isInCooldown := false } sig
      evaluateThreshold d.2 d.1
  else
    let d := getCombinedProductivityScore st sig
    evaluateThreshold d.2 d.1

/-- Result of one iteration of the monitoring loop body. -/
structure TickResult where
  shouldTrigger : Bool
  reason : String
  score : ℚ
  warningsSent : List String
  triggerEvents : List (String × ℚ)
deriving DecidableEq

/-- The part of the while-loop body of start_monitoring_with_gui after
get_combined_productivity_score has produced its data (src/main.py lines
422-489): decide via should_trigger_protocol with the pre-computed data,
run the warning ladder when not triggering and not in cooldown with a
positive score, and on a trigger arm the cooldown, reset baseline and
warning state, clear the trigger history, emit the single trigger event
and stop monitoring. In the source the trigger block reads time.time()
again a few lines after should_trigger_protocol did; both reads are
modelled by the same tick timestamp now. -/
def monitoringTickAfterScore (st : Orchestrator) (now : ℚ) (data : ScoreData) :
    TickResult × Orchestrator :=
  let t := shouldTriggerProtocol st now data
  let shouldTrig := t.1.1
  let reason := t.1.2.1
  let score := t.1.2.2
  let w :=
    if shouldTrig = false ∧ t.2.isInCooldown = false ∧ 0 < score then
      checkAndSendWarnings t.2 now score
    else (none, t.2)
  if shouldTrig then
    ({ shouldTrigger := true
       reason := reason
       score := score
       warningsSent := w.1.toList
       triggerEvents := [(reason, score)] },
     { w.2 with
        lastTriggerTime := now
        isInCooldown := true
        baselineScore := 0
        lastWarningLevel := 0
        lastWarningTime := 0
        previousTriggers := []
        monitoring := false })
  else
    ({ shouldTrigger := false
       reason := reason
       score := score
       warningsSent := w.1.toList
       triggerEvents := [] },
     w.2)

/-- One iteration of the monitoring loop body: first
get_combined_productivity_score runs (src/main.py line 419: signal
collection and baseline ratchet), then the decision/warning/trigger part
runs on the updated state with the pre-computed data. -/
def monitoringTick (st : Orchestrator) (now : ℚ) (sig : TickSignals) :
    TickResult × Orchestrator :=
  let d := getCombinedProductivityScore st sig
  monitoringTickAfterScore d.2 now d.1

/-- The state written by the trigger block of start_monitoring_with_gui
(src/main.py lines 459-476): cooldown armed at the current time, baseline
and warning state reset, trigger history cleared, monitoring stopped. -/
def triggeredReset (st : Orchestrator) (now : ℚ) : Orchestrator :=
  { st with
      lastTriggerTime := now
      isInCooldown := true
      baselineScore := 0
      lastWarningLevel := 0
      lastWarningTime := 0
      previousTriggers := []
      monitoring := false }

/-- The while-loop of start_monitoring_with_gui (src/main.py lines 417-492)
over a finite schedule of tick timestamps and signals: each iteration runs
only while the monitoring flag is set; once it is cleared (as the trigger
path does) the loop exits and no further tick is evaluated. -/
def runMonitoringLoop (st : Orchestrator) :
    List (ℚ × TickSignals) → List TickResult × Orchestrator
  | [] => ([], st)
  | (now, sig) :: rest =>
    if st.monitoring then
      let r := monitoringTick st now sig
      let rs := runMonitoringLoop r.2 rest
      (r.1 :: rs.1, rs.2)
    else ([], st)

/-- Modelled from the spec: the repository source contains no
SuppressionPolicy component (no suppression check exists anywhere under
src/). Spec section 4.5 and step 1 of the per-tick algorithm in section 4.6
require the suppression check to run before all other per-tick logic: when
suppressed the tick returns (false, suppression_reason, 0.0) and performs
no state mutation at all; otherwise the tick proceeds unchanged. -/
def monitoringTickWithSuppression (st : Orchestrator) (now : ℚ)
    (suppressed : Bool) (suppressionReason : String) (sig : TickSignals) :
    TickResult × Orchestrator :=
  if suppressed then
    ({ shouldTrigger := false
       reason := suppressionReason
       score := 0
       warningsSent := []
       triggerEvents := [] }, st)
  else monitoringTick st now sig

/-! Concrete states and signal inputs used by witnesses and
counterexamples. -/

/-- A fresh orchestrator (the init state) with threshold 0.5 and a 120s
cooldown, with monitoring switched on as start_monitoring_with_gui does. -/
def stFresh : Orchestrator :=
  { productivityThreshold := 1 / 2
    checkInterval := 2
    cooldownSeconds := 120
    lastTriggerTime := 0
    isInCooldown := false
    monitoring := true
    baselineScore := 0
    previousTriggers := []
    lastWarningLevel := 0
    warningCooldown := 5
    lastWarningTime := 0 }

/-- An orchestrator inside an active cooldown armed at time 0. -/
def stCooling : Orchestrator := { stFresh with isInCooldown := true }

/-- Signals of a strongly productive tick: detection 0.75, window tracking
triggering, keyboard 0.5 productive; raw is 0.72. -/
def sigStrong : TickSignals :=
  { detection := Outcome.ok { score := 3 / 4, triggersActivated := 1, geminiUsed := false }
    tracking := Outcome.ok
      { shouldTrigger := true, appName := "Code", tabOverload := false
        isProductiveTab := false, tabCount := 0 }
    keyboard := Outcome.ok (some { score := 1 / 2, isProductive := true, kbReason := "sustained typing" }) }

/-- Signals where the detection producer reports a 0.9 score while the
tracking block raises and keyboard tracking is disabled; raw is 0.36. -/
def sigDetOnly : TickSignals :=
  { detection := Outcome.ok { score := 9 / 10, triggersActivated := 1, geminiUsed := false }
    tracking := Outcome.exn
    keyboard := Outcome.ok none }

/-- Signals where every producer block raises. -/
def sigAllExn : TickSignals :=
  { detection := Outcome.exn, tracking := Outcome.exn, keyboard := Outcome.exn }

/-- Signals where window tracking does not trigger but reports a
tab-overloaded productive tab, exercising the unreachable 0.7 boost. -/
def sigTabOverload : TickSignals :=
  { detection := Outcome.ok { score := 0, triggersActivated := 0, geminiUsed := false }
    tracking := Outcome.ok
      { shouldTrigger := false, appName := "Chrome", tabOverload := true
        isProductiveTab := true, tabCount := 8 }
    keyboard := Outcome.ok none }

/-- An empty per-tick results record (all scores zero). -/
def dataZero : ScoreData :=
  { combinedScore := 0, detectionScore := 0, trackingScore := 0
    keyboardScore := 0, triggers := [], reason := "No productivity indicators detected"
    baselineScore := 0, rawScore := 0 }

/-! Helper lemmas shared by the claim theorems. -/

lemma getCombined_detectionScore (st : Orchestrator) (sig : TickSignals) :
    (getCombinedProductivityScore st sig).1.detectionScore =
      (detectionBlock sig.detection).1 := rfl

lemma getCombined_trackingScore (st : Orchestrator) (sig : TickSignals) :
    (getCombinedProductivityScore st sig).1.trackingScore =
      (trackingBlock sig.tracking).1 := rfl

lemma getCombined_keyboardScore (st : Orchestrator) (sig : TickSignals) :
    (getCombinedProductivityScore st sig).1.keyboardScore =
      (keyboardBlock sig.keyboard).1 := rfl

lemma getCombined_rawScore (st : Orchestrator) (sig : TickSignals) :
    (getCombinedProductivityScore st sig).1.rawScore =
      aggregateWeightedRaw (detectionBlock sig.detection).1
        (trackingBlock sig.tracking).1 (keyboardBlock sig.keyboard).1 := rfl

lemma quantizeTenth_eq_floor (x : ℚ) (hx : 0 ≤ x) :
    quantizeTenth x = ((⌊x * 10⌋ : ℤ) : ℚ) / 10 := by
  unfold quantizeTenth pyTrunc
  rw [if_pos (by positivity)]

lemma le_baselineUpdate (b raw : ℚ) : b ≤ baselineUpdate b raw := by
  unfold baselineUpdate
  split_ifs with h
  · exact le_of_lt h
  · exact le_refl b

lemma le_foldl_baselineUpdate (l : List ℚ) (b : ℚ) :
    b ≤ l.foldl baselineUpdate b := by
  induction l generalizing b with
  | nil => exact le_refl b
  | cons r rest ih => exact le_trans (le_baselineUpdate b r) (ih _)

lemma getCombined_snd (st : Orchestrator) (sig : TickSignals) :
    (getCombinedProductivityScore st sig).2 =
      { st with
          baselineScore := baselineUpdate st.baselineScore
            (aggregateWeightedRaw (detectionBlock sig.detection).1
              (trackingBlock sig.tracking).1 (keyboardBlock sig.keyboard).1) } := rfl

lemma checkAndSendWarnings_baseline (st : Orchestrator) (now s : ℚ) :
    (checkAndSendWarnings st now s).2.baselineScore = st.baselineScore := by
  unfold checkAndSendWarnings
  dsimp only
  split_ifs <;> rfl

lemma afterScore_cooldown_active (st : Orchestrator) (now : ℚ)
    (data : ScoreData) (hc : st.isInCooldown = true)
    (ht : 0 < st.cooldownSeconds - (now - st.lastTriggerTime)) :
    monitoringTickAfterScore st now data =
      ({ shouldTrigger := false
         reason := cooldownMessage (st.cooldownSeconds - (now - st.lastTriggerTime))
         score := 0
         warningsSent := []
         triggerEvents := [] }, st) := by
  unfold monitoringTickAfterScore shouldTriggerProtocol
  dsimp only
  rw [if_pos hc, if_pos ht]
  dsimp only
  rw [if_neg (by simp [hc]), if_neg (by simp)]
  rfl

lemma afterScore_fires (st : Orchestrator) (now : ℚ) (data : ScoreData)
    (hcd : st.isInCooldown = true →
      st.cooldownSeconds - (now - st.lastTriggerTime) ≤ 0)
    (hth : st.productivityThreshold ≤ data.combinedScore) :
    monitoringTickAfterScore st now data =
      ({ shouldTrigger := true
         reason := "Productivity detected: " ++ data.reason
         score := data.combinedScore
         warningsSent := []
         triggerEvents := [("Productivity detected: " ++ data.reason, data.combinedScore)] },
       triggeredReset st now) := by
  unfold monitoringTickAfterScore shouldTriggerProtocol evaluateThreshold triggeredReset
  dsimp only
  split_ifs with h1 h2 h3 h4 h5 <;> simp_all
  linarith

lemma afterScore_fired_flags (st : Orchestrator) (now : ℚ) (data : ScoreData)
    (hf : (monitoringTickAfterScore st now data).1.shouldTrigger = true) :
    (monitoringTickAfterScore st now data).2 = triggeredReset st now := by
  revert hf
  unfold monitoringTickAfterScore shouldTriggerProtocol evaluateThreshold triggeredReset
  dsimp only
  split_ifs <;> simp_all

lemma afterScore_baseline (st : Orchestrator) (now : ℚ) (data : ScoreData) :
    ((monitoringTickAfterScore st now data).1.shouldTrigger = true ∧
      (monitoringTickAfterScore st now data).2.baselineScore = 0) ∨
    ((monitoringTickAfterScore st now data).1.shouldTrigger = false ∧
      (monitoringTickAfterScore st now data).2.baselineScore = st.baselineScore) := by
  unfold monitoringTickAfterScore shouldTriggerProtocol evaluateThreshold
  dsimp only
  split_ifs <;> simp_all [checkAndSendWarnings_baseline]

/-! Claim theorems. -/

/-- C1: on an unblocked tick whose combined score reaches the threshold,
the engine emits exactly one trigger event, returns (true, reason,
combined), resets the baseline to 0, resets the warning state (last level
0, last time epoch), arms the cooldown at the current time; any later tick
within the cooldown window returns (false, cooldown message, 0) regardless
of its signals. -/
theorem C1_trigger_resets_state_then_cooldown_blocks (st : Orchestrator)
    (now : ℚ) (sig : TickSignals)
    (hcd : st.isInCooldown = true →
      st.cooldownSeconds - (now - st.lastTriggerTime) ≤ 0)
    (hth : st.productivityThreshold ≤
      (getCombinedProductivityScore st sig).1.combinedScore) :
    monitoringTick st now sig =
      ({ shouldTrigger := true
         reason := "Productivity detected: " ++
           (getCombinedProductivityScore st sig).1.reason
         score := (getCombinedProductivityScore st sig).1.combinedScore
         warningsSent := []
         triggerEvents :=
           [("Productivity detected: " ++
               (getCombinedProductivityScore st sig).1.reason,
             (getCombinedProductivityScore st sig).1.combinedScore)] },
       triggeredReset st now) ∧
    (∀ now2 sig2, 0 < st.cooldownSeconds - (now2 - now) →
      (monitoringTick (monitoringTick st now sig).2 now2 sig2).1 =
        { shouldTrigger := false
          reason := cooldownMessage (st.cooldownSeconds - (now2 - now))
          score := 0
          warningsSent := []
          triggerEvents := [] }) := by
  have hmain :
      monitoringTick st now sig =
        ({ shouldTrigger := true
           reason := "Productivity detected: " ++
             (getCombinedProductivityScore st sig).1.reason
           score := (getCombinedProductivityScore st sig).1.combinedScore
           warningsSent := []
           triggerEvents :=
             [("Productivity detected: " ++
                 (getCombinedProductivityScore st sig).1.reason,
               (getCombinedProductivityScore st sig).1.combinedScore)] },
         triggeredReset st now) :=
    afterScore_fires (getCombinedProductivityScore st sig).2 now
      (getCombinedProductivityScore st sig).1 hcd hth
  refine ⟨hmain, fun now2 sig2 hwin => ?_⟩
  have hpost : (monitoringTick st now sig).2 = triggeredReset st now :=
    congrArg Prod.snd hmain
  rw [hpost]
  exact congrArg Prod.fst
    (afterScore_cooldown_active
      (getCombinedProductivityScore (triggeredReset st now) sig2).2 now2
      (getCombinedProductivityScore (triggeredReset st now) sig2).1
      rfl hwin)

theorem C1_witness :
    monitoringTick stFresh 100 sigStrong =
      ({ shouldTrigger := true
         reason := "Productivity detected: " ++
           (getCombinedProductivityScore stFresh sigStrong).1.reason
         score := (getCombinedProductivityScore stFresh sigStrong).1.combinedScore
         warningsSent := []
         triggerEvents :=
           [("Productivity detected: " ++
               (getCombinedProductivityScore stFresh sigStrong).1.reason,
             (getCombinedProductivityScore stFresh sigStrong).1.combinedScore)] },
       triggeredReset stFresh 100) ∧
    (∀ now2 sig2, 0 < stFresh.cooldownSeconds - (now2 - 100) →
      (monitoringTick (monitoringTick stFresh 100 sigStrong).2 now2 sig2).1 =
        { shouldTrigger := false
          reason := cooldownMessage (stFresh.cooldownSeconds - (now2 - 100))
          score := 0
          warningsSent := []
          triggerEvents := [] }) :=
  C1_trigger_resets_state_then_cooldown_blocks stFresh 100 sigStrong
    (by simp [stFresh])
    (by norm_num [getCombinedProductivityScore, detectionBlock, trackingBlock,
      keyboardBlock, aggregateWeightedRaw, baselineUpdate, quantizeTenth,
      pyTrunc, stFresh, sigStrong])

/-- C2 counterexample: a tick at time 10 inside an active 120s cooldown
returns (false, cooldown message, 0) as the claim says, yet the tick does
collect signals and does mutate the baseline: the stored baseline moves
from 0 to 0.3 on the strength of a 0.9 detection score. -/
theorem C2_counterexample_cooldown_tick_mutates_baseline :
    (monitoringTick stCooling 10 sigDetOnly).1.shouldTrigger = false ∧
    (monitoringTick stCooling 10 sigDetOnly).1.score = 0 ∧
    stCooling.baselineScore = 0 ∧
    (monitoringTick stCooling 10 sigDetOnly).2.baselineScore = 3 / 10 := by
  refine ⟨?_, ?_, rfl, ?_⟩ <;>
    norm_num [monitoringTick, monitoringTickAfterScore, getCombinedProductivityScore,
      shouldTriggerProtocol, checkAndSendWarnings, detectionBlock, trackingBlock,
      keyboardBlock, aggregateWeightedRaw, baselineUpdate, quantizeTenth, pyTrunc,
      stCooling, stFresh, sigDetOnly]

/-- C2 amended: a tick during active cooldown returns (false, cooldown
message, 0) from the decision, but the monitoring loop has already run
get_combined_productivity_score before that check, so signals are
collected and the baseline is ratcheted exactly as on an ordinary tick;
only should_trigger_protocol called without pre-computed data skips
collection and leaves the state untouched. -/
theorem C2_amended_cooldown_decision_blocks_but_loop_collects
    (st : Orchestrator) (now : ℚ) (sig : TickSignals)
    (hc : st.isInCooldown = true)
    (ht : 0 < st.cooldownSeconds - (now - st.lastTriggerTime)) :
    monitoringTick st now sig =
      ({ shouldTrigger := false
         reason := cooldownMessage (st.cooldownSeconds - (now - st.lastTriggerTime))
         score := 0
         warningsSent := []
         triggerEvents := [] },
       (getCombinedProductivityScore st sig).2) ∧
    (getCombinedProductivityScore st sig).2.baselineScore =
      baselineUpdate st.baselineScore
        (getCombinedProductivityScore st sig).1.rawScore ∧
    shouldTriggerProtocolSelf st now sig =
      ((false, cooldownMessage (st.cooldownSeconds - (now - st.lastTriggerTime)), 0),
       st) := by
  refine ⟨afterScore_cooldown_active (getCombinedProductivityScore st sig).2 now
    (getCombinedProductivityScore st sig).1 hc ht, rfl, ?_⟩
  unfold shouldTriggerProtocolSelf
  dsimp only
  rw [if_pos hc, if_pos ht]

theorem C2_witness :
    monitoringTick stCooling 10 sigDetOnly =
      ({ shouldTrigger := false
         reason := cooldownMessage (stCooling.cooldownSeconds - (10 - stCooling.lastTriggerTime))
         score := 0
         warningsSent := []
         triggerEvents := [] },
       (getCombinedProductivityScore stCooling sigDetOnly).2) ∧
    (getCombinedProductivityScore stCooling sigDetOnly).2.baselineScore =
      baselineUpdate stCooling.baselineScore
        (getCombinedProductivityScore stCooling sigDetOnly).1.rawScore ∧
    shouldTriggerProtocolSelf stCooling 10 sigDetOnly =
      ((false, cooldownMessage (stCooling.cooldownSeconds - (10 - stCooling.lastTriggerTime)), 0),
       stCooling) :=
  C2_amended_cooldown_decision_blocks_but_loop_collects stCooling 10 sigDetOnly
    rfl (by norm_num [stCooling, stFresh])

/-- C3: across any sequence of updates the baseline never decreases; each
update quantizes the raw score down with a floor to the nearest 0.1 and
raises the baseline only on strict excess; within a tick the baseline
decreases only via the trigger reset, which sets it to exactly 0. -/
theorem C3_baseline_monotone_ratchet (b raw : ℚ) (hraw : 0 ≤ raw) :
    baselineUpdate b raw =
      (if b < ((⌊raw * 10⌋ : ℤ) : ℚ) / 10 then ((⌊raw * 10⌋ : ℤ) : ℚ) / 10
       else b) ∧
    b ≤ baselineUpdate b raw ∧
    (∀ l : List ℚ, b ≤ l.foldl baselineUpdate b) ∧
    (∀ st now sig,
      (monitoringTick st now sig).2.baselineScore < st.baselineScore →
      (monitoringTick st now sig).1.shouldTrigger = true ∧
      (monitoringTick st now sig).2.baselineScore = 0) := by
  refine ⟨?_, le_baselineUpdate b raw, fun l => le_foldl_baselineUpdate l b, ?_⟩
  · unfold baselineUpdate
    rw [quantizeTenth_eq_floor raw hraw]
  · intro st now sig hlt
    have h := afterScore_baseline (getCombinedProductivityScore st sig).2 now
      (getCombinedProductivityScore st sig).1
    rcases h with ⟨h1, h2⟩ | ⟨h1, h2⟩
    · exact ⟨h1, h2⟩
    · exfalso
      have hge : st.baselineScore ≤ (monitoringTick st now sig).2.baselineScore := by
        have h3 : (monitoringTick st now sig).2.baselineScore =
            (getCombinedProductivityScore st sig).2.baselineScore := h2
        rw [h3]
        exact le_baselineUpdate _ _
      exact absurd hlt (not_lt.mpr hge)

theorem C3_witness :
    (baselineUpdate 0 (7 / 20) =
      (if (0:ℚ) < ((⌊(7 / 20 : ℚ) * 10⌋ : ℤ) : ℚ) / 10
       then ((⌊(7 / 20 : ℚ) * 10⌋ : ℤ) : ℚ) / 10 else 0) ∧
    (0:ℚ) ≤ baselineUpdate 0 (7 / 20) ∧
    (∀ l : List ℚ, (0:ℚ) ≤ l.foldl baselineUpdate 0) ∧
    (∀ st now sig,
      (monitoringTick st now sig).2.baselineScore < st.baselineScore →
      (monitoringTick st now sig).1.shouldTrigger = true ∧
      (monitoringTick st now sig).2.baselineScore = 0)) :=
  C3_baseline_monotone_ratchet 0 (7 / 20) (by norm_num)

/-- C4: for every signal sample whose three sub-scores lie in [0,1], the
aggregated raw score equals visual*0.4 + focus*0.4 + typing*0.2 capped at
1.0 and lies in [0,1]; the per-tick raw score is exactly this aggregation
of the three block scores. -/
theorem C4_aggregate_weighted_sum_capped (v f t : ℚ)
    (hv0 : 0 ≤ v) (hv1 : v ≤ 1) (hf0 : 0 ≤ f) (hf1 : f ≤ 1)
    (ht0 : 0 ≤ t) (ht1 : t ≤ 1) :
    aggregateWeightedRaw v f t =
      min (v * (4 / 10) + f * (4 / 10) + t * (2 / 10)) 1 ∧
    0 ≤ aggregateWeightedRaw v f t ∧ aggregateWeightedRaw v f t ≤ 1 ∧
    (∀ st sig, (getCombinedProductivityScore st sig).1.rawScore =
      aggregateWeightedRaw (detectionBlock sig.detection).1
        (trackingBlock sig.tracking).1 (keyboardBlock sig.keyboard).1) := by
  have hle : v * (4 / 10) + f * (4 / 10) + t * (2 / 10) ≤ 1 := by nlinarith
  have h0 : 0 ≤ v * (4 / 10) + f * (4 / 10) + t * (2 / 10) := by nlinarith
  exact ⟨(min_eq_left hle).symm, h0, hle, fun st sig => rfl⟩

theorem C4_witness :
    aggregateWeightedRaw (3 / 4) (4 / 5) (1 / 2) =
      min ((3 / 4) * (4 / 10) + (4 / 5) * (4 / 10) + (1 / 2) * (2 / 10)) 1 ∧
    0 ≤ aggregateWeightedRaw (3 / 4) (4 / 5) (1 / 2) ∧
    aggregateWeightedRaw (3 / 4) (4 / 5) (1 / 2) ≤ 1 ∧
    (∀ st sig, (getCombinedProductivityScore st sig).1.rawScore =
      aggregateWeightedRaw (detectionBlock sig.detection).1
        (trackingBlock sig.tracking).1 (keyboardBlock sig.keyboard).1) :=
  C4_aggregate_weighted_sum_capped (3 / 4) (4 / 5) (1 / 2)
    (by norm_num) (by norm_num) (by norm_num) (by norm_num)
    (by norm_num) (by norm_num)

/-- C5: on a suppressed tick the engine returns (false, suppression_reason,
score 0) and the whole orchestrator state is returned exactly unchanged;
the suppression check runs before any other per-tick logic. -/
theorem C5_suppressed_tick_no_op (st : Orchestrator) (now : ℚ)
    (suppressionReason : String) (sig : TickSignals) :
    monitoringTickWithSuppression st now true suppressionReason sig =
      ({ shouldTrigger := false
         reason := suppressionReason
         score := 0
         warningsSent := []
         triggerEvents := [] }, st) := rfl

/-- C6: a warning is emitted iff the 0.1-bucket of the combined score
strictly exceeds the last warned level, the bucket is at least 0.1, and
the warning rate limit has elapsed; on emission the last warned level and
time are updated, so re-feeding the same score emits nothing further. -/
theorem C6_warning_ladder (st : Orchestrator) (now score : ℚ)
    (hs : 0 ≤ score) :
    quantizeTenth score = ((⌊score * 10⌋ : ℤ) : ℚ) / 10 ∧
    ((checkAndSendWarnings st now score).1.isSome = true ↔
      (st.lastWarningLevel < quantizeTenth score ∧
        1 / 10 ≤ quantizeTenth score ∧
        st.warningCooldown ≤ now - st.lastWarningTime)) ∧
    ((checkAndSendWarnings st now score).1.isSome = true →
      (checkAndSendWarnings st now score).2.lastWarningLevel = quantizeTenth score ∧
      (checkAndSendWarnings st now score).2.lastWarningTime = now) ∧
    ((checkAndSendWarnings st now score).1.isSome = true →
      ∀ now2,
        (checkAndSendWarnings (checkAndSendWarnings st now score).2 now2 score).1
          = none) := by
  refine ⟨quantizeTenth_eq_floor score hs, ?_, ?_, ?_⟩
  · unfold checkAndSendWarnings
    dsimp only
    split_ifs with h1 h2
    · simp only [Option.isSome_none]
      constructor
      · intro h
        exact absurd h (by norm_num)
      · rintro ⟨-, -, hc⟩
        exact ((not_lt.mpr hc) h1).elim
    · simp only [Option.isSome_some, true_iff]
      exact ⟨h2.1, h2.2, by linarith⟩
    · simp only [Option.isSome_none]
      constructor
      · intro h
        exact absurd h (by norm_num)
      · rintro ⟨ha, hb, -⟩
        exact (h2 ⟨ha, hb⟩).elim
  · unfold checkAndSendWarnings
    dsimp only
    split_ifs with h1 h2
    · intro h
      exact absurd h (by norm_num)
    · intro h
      exact ⟨rfl, rfl⟩
    · intro h
      exact absurd h (by norm_num)
  · intro hsome now2
    have hlevel : (checkAndSendWarnings st now score).2.lastWarningLevel =
        quantizeTenth score := by
      revert hsome
      unfold checkAndSendWarnings
      dsimp only
      split_ifs with h1 h2
      · intro h
        exact absurd h (by norm_num)
      · intro h
        rfl
      · intro h
        exact absurd h (by norm_num)
    set w := checkAndSendWarnings st now score with hw
    unfold checkAndSendWarnings
    dsimp only
    rw [hlevel]
    split_ifs with d1 d2
    · rfl
    · exact absurd d2.1 (lt_irrefl _)
    · rfl

theorem C6_witness :
    quantizeTenth (7 / 20) = ((⌊(7 / 20 : ℚ) * 10⌋ : ℤ) : ℚ) / 10 ∧
    ((checkAndSendWarnings stFresh 10 (7 / 20)).1.isSome = true ↔
      (stFresh.lastWarningLevel < quantizeTenth (7 / 20) ∧
        1 / 10 ≤ quantizeTenth (7 / 20) ∧
        stFresh.warningCooldown ≤ 10 - stFresh.lastWarningTime)) ∧
    ((checkAndSendWarnings stFresh 10 (7 / 20)).1.isSome = true →
      (checkAndSendWarnings stFresh 10 (7 / 20)).2.lastWarningLevel =
        quantizeTenth (7 / 20) ∧
      (checkAndSendWarnings stFresh 10 (7 / 20)).2.lastWarningTime = 10) ∧
    ((checkAndSendWarnings stFresh 10 (7 / 20)).1.isSome = true →
      ∀ now2,
        (checkAndSendWarnings (checkAndSendWarnings stFresh 10 (7 / 20)).2
            now2 (7 / 20)).1 = none) :=
  C6_warning_ladder stFresh 10 (7 / 20) (by norm_num)

/-- C7: an exception in any of the three producer blocks is caught, the
corresponding sub-score is 0.0, and the tick still returns a result whose
raw score is the weighted aggregation of the three stored sub-scores. -/
theorem C7_producer_exception_isolated (st : Orchestrator) (sig : TickSignals) :
    (sig.detection = Outcome.exn →
      (getCombinedProductivityScore st sig).1.detectionScore = 0) ∧
    (sig.tracking = Outcome.exn →
      (getCombinedProductivityScore st sig).1.trackingScore = 0) ∧
    (sig.keyboard = Outcome.exn →
      (getCombinedProductivityScore st sig).1.keyboardScore = 0) ∧
    (getCombinedProductivityScore st sig).1.rawScore =
      aggregateWeightedRaw (getCombinedProductivityScore st sig).1.detectionScore
        (getCombinedProductivityScore st sig).1.trackingScore
        (getCombinedProductivityScore st sig).1.keyboardScore := by
  refine ⟨fun h => ?_, fun h => ?_, fun h => ?_, rfl⟩
  · rw [getCombined_detectionScore, h]
    rfl
  · rw [getCombined_trackingScore, h]
    rfl
  · rw [getCombined_keyboardScore, h]
    rfl

theorem C7_witness :
    (getCombinedProductivityScore stFresh sigAllExn).1.detectionScore = 0 ∧
    (getCombinedProductivityScore stFresh sigAllExn).1.trackingScore = 0 ∧
    (getCombinedProductivityScore stFresh sigAllExn).1.keyboardScore = 0 :=
  ⟨(C7_producer_exception_isolated stFresh sigAllExn).1 rfl,
   (C7_producer_exception_isolated stFresh sigAllExn).2.1 rfl,
   (C7_producer_exception_isolated stFresh sigAllExn).2.2.1 rfl⟩

/-- C8 counterexample: constructing the orchestrator with a trigger
threshold of 2 (outside [0,1]) and a negative check interval succeeds and
returns a fully initialized engine; construction does not fail. -/
theorem C8_counterexample_invalid_config_accepted :
    DeProductifyOrchestrator.init 2 (-1) true 120 =
      Except.ok
        { productivityThreshold := 2
          checkInterval := -1
          cooldownSeconds := 120
          lastTriggerTime := 0
          isInCooldown := false
          monitoring := false
          baselineScore := 0
          previousTriggers := []
          lastWarningLevel := 0
          warningCooldown := 5
          lastWarningTime := 0 } := rfl

/-- C8 amended: construction performs no validation of the configuration:
for every threshold, interval, keyboard flag and cooldown (valid or not)
the constructor succeeds and merely stores the values. -/
theorem C8_amended_construction_never_validates
    (productivityThreshold checkInterval : ℚ) (useKeyboardTracking : Bool)
    (cooldownSeconds : ℚ) :
    DeProductifyOrchestrator.init productivityThreshold checkInterval
        useKeyboardTracking cooldownSeconds =
      Except.ok
        { productivityThreshold := productivityThreshold
          checkInterval := checkInterval
          cooldownSeconds := cooldownSeconds
          lastTriggerTime := 0
          isInCooldown := false
          monitoring := false
          baselineScore := 0
          previousTriggers := []
          lastWarningLevel := 0
          warningCooldown := 5
          lastWarningTime := 0 } := rfl

/-- C9 counterexample: with a 120s cooldown, a loop scheduled to tick at
time 0 (firing a trigger) and again at time 200 (well past the cooldown
window) evaluates only one tick: the trigger path stops monitoring, so the
post-cooldown tick never resumes evaluation without external restart. -/
theorem C9_counterexample_loop_stops_after_trigger :
    (runMonitoringLoop stFresh [(0, sigStrong), (200, sigStrong)]).1.length = 1 ∧
    (runMonitoringLoop stFresh [(0, sigStrong), (200, sigStrong)]).2.monitoring = false ∧
    stFresh.cooldownSeconds < 200 := by
  refine ⟨?_, ?_, by norm_num [stFresh]⟩ <;>
    norm_num [runMonitoringLoop, monitoringTick, monitoringTickAfterScore,
      getCombinedProductivityScore, shouldTriggerProtocol, evaluateThreshold,
      checkAndSendWarnings, detectionBlock, trackingBlock, keyboardBlock,
      aggregateWeightedRaw, baselineUpdate, quantizeTenth, pyTrunc,
      stFresh, sigStrong]

/-- C9 amended: a trigger arms the cooldown flag and stops the monitoring
loop, so ticks resume only after an external restart; once restarted, a
tick at or past the end of the cooldown window lazily clears the cooldown
flag and proceeds with normal threshold evaluation. -/
theorem C9_amended_cooldown_clears_lazily_but_loop_needs_restart :
    (∀ st now sig, (monitoringTick st now sig).1.shouldTrigger = true →
      (monitoringTick st now sig).2.isInCooldown = true ∧
      (monitoringTick st now sig).2.monitoring = false) ∧
    (∀ st now data, st.isInCooldown = true →
      st.cooldownSeconds - (now - st.lastTriggerTime) ≤ 0 →
      shouldTriggerProtocol st now data =
        evaluateThreshold { st with isInCooldown := false } data) := by
  constructor
  · intro st now sig hf
    have h := afterScore_fired_flags (getCombinedProductivityScore st sig).2 now
      (getCombinedProductivityScore st sig).1 hf
    exact ⟨congrArg Orchestrator.isInCooldown h,
      congrArg Orchestrator.monitoring h⟩
  · intro st now data hc hle
    unfold shouldTriggerProtocol
    dsimp only
    rw [if_pos hc, if_neg (not_lt.mpr hle)]

theorem C9_witness :
    ((monitoringTick stFresh 100 sigStrong).2.isInCooldown = true ∧
      (monitoringTick stFresh 100 sigStrong).2.monitoring = false) ∧
    shouldTriggerProtocol stCooling 300 dataZero =
      evaluateThreshold { stCooling with isInCooldown := false } dataZero :=
  ⟨C9_amended_cooldown_clears_lazily_but_loop_needs_restart.1 stFresh 100 sigStrong
      (by norm_num [monitoringTick, monitoringTickAfterScore,
        getCombinedProductivityScore, shouldTriggerProtocol, evaluateThreshold,
        checkAndSendWarnings, detectionBlock, trackingBlock, keyboardBlock,
        aggregateWeightedRaw, baselineUpdate, quantizeTenth, pyTrunc,
        stFresh, sigStrong]),
   C9_amended_cooldown_clears_lazily_but_loop_needs_restart.2 stCooling 300 dataZero
      rfl (by norm_num [stCooling, stFresh])⟩

/-- C10: whenever the window tracker's should_trigger_protocol outcome is
false, the stored tracking sub-score is exactly 0.0; in particular the
tab-overload 0.7 boost never takes effect, because reading the unassigned
local tracking_score raises an error the enclosing handler swallows. -/
theorem C10_tracking_score_zero_without_trigger (st : Orchestrator)
    (sig : TickSignals) (p : TrackingPayload)
    (hp : sig.tracking = Outcome.ok p) (hf : p.shouldTrigger = false) :
    (trackingBlock sig.tracking).1 = 0 ∧
    (getCombinedProductivityScore st sig).1.trackingScore = 0 := by
  have hz : (trackingBlock (Outcome.ok p)).1 = 0 := by
    unfold trackingBlock
    dsimp only
    rw [if_neg (by simp [hf])]
    split_ifs <;> rfl
  exact ⟨by rw [hp]; exact hz, by rw [getCombined_trackingScore, hp]; exact hz⟩

theorem C10_witness :
    (trackingBlock sigTabOverload.tracking).1 = 0 ∧
    (getCombinedProductivityScore stFresh sigTabOverload).1.trackingScore = 0 :=
  C10_tracking_score_zero_without_trigger stFresh sigTabOverload
    { shouldTrigger := false, appName := "Chrome", tabOverload := true
      isProductiveTab := true, tabCount := 8 } rfl rfl
